import Mathlib

/-!
Verification of the AMZ-Automation document-generation engine (src/main.py).

The Python source is shallowly embedded: each pure decision function of the
script (status gates, template selection, service-line normalization,
filename construction, existence checks, placeholder rendering, copy polling)
becomes an executable Lean definition over explicit data.  Network calls are
modelled by passing their observed results (folder listings, fetched CRM
records) as arguments.
-/

namespace AMZ

/-! ### Python string primitives

Embeddings of the `str` methods the script uses: `lower`, `strip`,
`replace`, `split(";")`, `startswith`, `"".join`, and the `x or ""`
idiom for optional CRM values. -/

/-- Python `s.lower()` (ASCII case folding, as used on status tags). -/
def pyLower (s : String) : String := ⟨s.data.map Char.toLower⟩

/-- Python `s.strip()`: drop whitespace from both ends. -/
def pyStrip (s : String) : String :=
  ⟨((s.data.dropWhile Char.isWhitespace).reverse.dropWhile Char.isWhitespace).reverse⟩

/-- Python `x or ""` applied to an optional CRM property value
(`None` and the empty string both give `""`). -/
def pyOr (v : Option String) : String := v.getD ""

/-- Scanner for Python `s.replace(pat, rep)` with a nonempty pattern:
left-to-right, non-overlapping replacement of every occurrence.  The fuel
argument starts at the length of the list and only decreases by one when at
least one character is consumed, so it can never run out. -/
def pyReplaceFuel (pat rep : List Char) : Nat → List Char → List Char
  | _, [] => []
  | 0, s => s
  | fuel + 1, c :: rest =>
    if pat.isPrefixOf (c :: rest) then
      rep ++ pyReplaceFuel pat rep fuel (rest.drop (pat.length - 1))
    else
      c :: pyReplaceFuel pat rep fuel rest

/-- Python `s.replace(pat, rep)` on character lists, including the
empty-pattern case (Python interleaves `rep` around every character). -/
def pyReplaceL (pat rep s : List Char) : List Char :=
  if pat = [] then rep ++ (s.map (fun c => c :: rep)).flatten
  else pyReplaceFuel pat rep s.length s

/-- Python `s.replace(pat, rep)` on strings. -/
def pyReplace (s pat rep : String) : String := ⟨pyReplaceL pat.data rep.data s.data⟩

/-- Python `s.split(";")` on character lists. -/
def splitSemiL : List Char → List (List Char)
  | [] => [[]]
  | c :: rest =>
    if c = ';' then [] :: splitSemiL rest
    else
      match splitSemiL rest with
      | [] => [[c]]
      | g :: gs => (c :: g) :: gs

/-- Python `s.split(";")` on strings. -/
def pySplitSemi (s : String) : List String := (splitSemiL s.data).map (fun l => ⟨l⟩)

/-- Python `"".join(...)` over the text of a list of runs. -/
def strJoin (runs : List String) : String := String.join runs

/-- Python `s.startswith(pfx)`. -/
def strStartsWith (s pfx : String) : Bool := pfx.data.isPrefixOf s.data

/-! ### Placeholder renderer (`replace_placeholder`, main.py lines 248-259)

A paragraph is its list of run texts.  A field map is an ordered list of
(key, value) pairs, the value being `none` when the Python value is `None`. -/

/-- A paragraph of a docx document, as the list of the text of its runs. -/
abbrev Para := List String

/-- Python `str(val) if val is not None else ""` as used in
`replace_placeholder` (values are strings, so `str` is the identity). -/
def substValue : Option String → String
  | some v => v
  | none => ""

/-- The loop `for key, val in replacements.items(): full_text =
full_text.replace(key, str(val) if val is not None else "")`. -/
def applyReplacements (repl : List (String × Option String)) (s : String) : String :=
  repl.foldl (fun acc kv => pyReplace acc kv.1 (substValue kv.2)) s

/-- `replace_placeholder(paragraph, replacements)` (main.py 248-259):
concatenate all run texts, substitute every key of the field map, write the
result into the first run and blank the rest. -/
def replace_placeholder (repl : List (String × Option String)) (runs : Para) : Para :=
  let full := applyReplacements repl (strJoin runs)
  match runs with
  | [] => []
  | _ :: rest => full :: rest.map (fun _ => "")

/-! ### Document model and `replace_placeholders_in_document` (main.py 261-295)

python-docx iteration: `doc.paragraphs` and `doc.tables` are the direct
(body-level) paragraphs and tables; `cell.paragraphs` are the paragraphs
that are direct children of a table cell, not the ones inside tables nested
in that cell; headers and footers each expose `paragraphs` and `tables`. -/

mutual
/-- A docx table: a list of rows, each row a list of cells. -/
inductive Tbl : Type where
  | mk (rows : List (List Cell)) : Tbl

/-- A docx table cell: its direct paragraphs and any tables nested in it. -/
inductive Cell : Type where
  | mk (paragraphs : List Para) (tables : List Tbl) : Cell
end

/-- The rows of a table. -/
def Tbl.rows : Tbl → List (List Cell)
  | .mk rs => rs

/-- `cell.paragraphs`: the direct paragraphs of a cell. -/
def Cell.paras : Cell → List Para
  | .mk ps _ => ps

/-- The tables nested directly inside a cell. -/
def Cell.nested : Cell → List Tbl
  | .mk _ ts => ts

/-- A header or footer: its paragraphs and its top-level tables. -/
structure HF where
  paragraphs : List Para
  tables : List Tbl

/-- A docx section, with a header and a footer. -/
structure DocSection where
  header : HF
  footer : HF

/-- A docx document: body paragraphs, body tables, and sections. -/
structure Docx where
  paragraphs : List Para
  tables : List Tbl
  sections : List DocSection

/-- The loop body `for p in cell.paragraphs: replace_placeholder(p, ...)`:
only the direct paragraphs of the cell are substituted; tables nested in
the cell are not visited. -/
def renderCell (repl : List (String × Option String)) : Cell → Cell
  | .mk ps ts => .mk (ps.map (replace_placeholder repl)) ts

/-- The loop `for row in table.rows: for cell in row.cells: ...`. -/
def renderTbl (repl : List (String × Option String)) : Tbl → Tbl
  | .mk rows => .mk (rows.map (fun r => r.map (renderCell repl)))

/-- The header/footer loops of `replace_placeholders_in_document`. -/
def renderHF (repl : List (String × Option String)) (h : HF) : HF :=
  HF.mk (h.paragraphs.map (replace_placeholder repl)) (h.tables.map (renderTbl repl))

/-- `replace_placeholders_in_document(doc, replacements)` (main.py 261-295):
body paragraphs, body tables, then header and footer paragraphs and tables
of every section. -/
def replace_placeholders_in_document (repl : List (String × Option String)) (d : Docx) : Docx :=
  Docx.mk
    (d.paragraphs.map (replace_placeholder repl))
    (d.tables.map (renderTbl repl))
    (d.sections.map (fun s => DocSection.mk (renderHF repl s.header) (renderHF repl s.footer)))

/-- The paragraphs of a table that `replace_placeholders_in_document`
visits: direct paragraphs of the cells of its rows. -/
def tblTopParas (t : Tbl) : List Para := (t.rows.flatten.map Cell.paras).flatten

/-- The paragraphs of a header/footer that the renderer visits. -/
def hfParas (h : HF) : List Para := h.paragraphs ++ (h.tables.map tblTopParas).flatten

/-- All paragraphs of a document that the renderer visits. -/
def docParas (d : Docx) : List Para :=
  d.paragraphs ++ (d.tables.map tblTopParas).flatten
    ++ (d.sections.map (fun s => hfParas s.header ++ hfParas s.footer)).flatten

/-! ### Status gates (generate_nda_for_company 611-628, generate_proposal_for_deal
818-824, generate_sow_for_deal 983-1010, generate_msa_for_company 1205-1219) -/

/-- The primary-contact record used by the NDA flow
(`fetch_primary_contact_nda`, main.py 531-551).  The fetch returns `None`
(modelled as `Option.none` at the use site) unless some associated contact
has both a truthy `firstname` and a truthy `lastname`. -/
structure NdaContact where
  nda_status : Option String
  contact_type : Option String
  firstname : Option String
  lastname : Option String
  email : Option String
  jobtitle : Option String

/-- The primary-contact record used by the MSA flow
(`fetch_primary_contact_for_msa`, main.py 1146-1165); `none` models the
empty dict returned when no associated contact exists. -/
structure MsaContact where
  msa_status : Option String
  firstname : Option String
  lastname : Option String
  email : Option String
  jobtitle : Option String

/-- The NDA status gate (main.py 618-628): if no primary contact resolves
the company is skipped; otherwise generation proceeds unless both the
contact and the company `nda_status`, stripped and lowercased, differ from
"generate". -/
def nda_gate (company_nda_status : Option String) (contact : Option NdaContact) : Bool :=
  match contact with
  | none => false
  | some c =>
    let company_st := pyLower (pyStrip (pyOr company_nda_status))
    let contact_st := pyLower (pyStrip (pyOr c.nda_status))
    if contact_st ≠ "generate" ∧ company_st ≠ "generate" then false else true

/-- The Proposal status gate (main.py 822-824): the deal `proposal_status`,
stripped and lowercased, must equal "generate". -/
def proposal_gate (proposal_status : String) : Bool :=
  pyLower (pyStrip proposal_status) == "generate"

/-- The SOW flow performs no status check: `generate_sow_for_deal`
(main.py 983-1123) fetches `sow_status` but never reads it, so every deal
proceeds. -/
def sow_gate (_sow_status : Option String) : Bool := true

/-- The MSA status gate (main.py 1216-1219): only the resolved contact
`msa_status` (lowercased and stripped) is compared with "generate"; the
company `msa_status` is fetched but never consulted. -/
def msa_gate (contact : Option MsaContact) : Bool :=
  pyStrip (pyLower (pyOr (contact.bind MsaContact.msa_status))) == "generate"

/-- The four document-generation flows. -/
inductive Flow where
  | nda | proposal | sow | msa
deriving DecidableEq

/-- Modelled from the spec (section 4.1): the claimed uniform status gate,
"Generate iff the entity own status tag, case-folded and trimmed, equals
generate, OR (for NDA/MSA flows only) the related contact status tag equals
generate". -/
def claimed_status_gate (flow : Flow) (own related : String) : Bool :=
  pyLower (pyStrip own) == "generate" ||
    ((flow == Flow.nda || flow == Flow.msa) && pyLower (pyStrip related) == "generate")

/-! ### Template selection (main.py 630-636, 810-816 with 885, 975-981 with 1062) -/

/-- The three NDA templates. -/
inductive NdaTemplate where
  | candidate | contractor | corporate
deriving DecidableEq

/-- NDA template selection (main.py 630-636) from the contact
`contact_type`, stripped and lowercased. -/
def nda_template_for (contact_type : Option String) : NdaTemplate :=
  let ct := pyLower (pyStrip (pyOr contact_type))
  if ct = "candidate" then NdaTemplate.candidate
  else if ct = "contractor" ∨ ct = "employee" ∨ ct = "partner/producer" then
    NdaTemplate.contractor
  else NdaTemplate.corporate

/-- The five proposal templates. -/
inductive ProposalTemplateId where
  | riskAssessment | consultingServices | recruiting | training | globalThreatIntelligence
deriving DecidableEq

/-- The `PROPOSAL_TEMPLATES` dict (main.py 810-816). -/
def PROPOSAL_TEMPLATES : List (String × ProposalTemplateId) :=
  [("Risk Assessment", ProposalTemplateId.riskAssessment),
   ("Consulting Services", ProposalTemplateId.consultingServices),
   ("Recruiting", ProposalTemplateId.recruiting),
   ("Training", ProposalTemplateId.training),
   ("Global Threat Intelligence", ProposalTemplateId.globalThreatIntelligence)]

/-- `PROPOSAL_TEMPLATES.get(service_line, PROPOSAL_TEMPLATES["Risk Assessment"])`
(main.py 885): total, with the Risk Assessment template as fallback. -/
def proposal_template_for (service_line : String) : ProposalTemplateId :=
  ((PROPOSAL_TEMPLATES.find? (fun kv => kv.1 == service_line)).map Prod.snd).getD
    ProposalTemplateId.riskAssessment

/-- The five SOW templates. -/
inductive SowTemplateId where
  | riskAssessment | globalThreatIntelligence | recruiting | training | consultingServices
deriving DecidableEq

/-- The `SOW_TEMPLATES` dict (main.py 975-981). -/
def SOW_TEMPLATES : List (String × SowTemplateId) :=
  [("Risk Assessment", SowTemplateId.riskAssessment),
   ("Global Threat Intelligence", SowTemplateId.globalThreatIntelligence),
   ("Recruiting", SowTemplateId.recruiting),
   ("Training", SowTemplateId.training),
   ("Consulting Services", SowTemplateId.consultingServices)]

/-- `SOW_TEMPLATES.get(service_line)` (main.py 1062): partial; the SOW loop
does `continue` when the result is falsy (1063-1064). -/
def sow_template_for (service_line : String) : Option SowTemplateId :=
  (SOW_TEMPLATES.find? (fun kv => kv.1 == service_line)).map Prod.snd

/-! ### Service-line normalization (main.py 841-848 and 1002-1009) -/

/-- An element of a raw multi-select list value: either a dict (with the
result of `opt.get("value")`) or some non-dict runtime value. -/
inductive PyItem where
  | dict (value : Option String)
  | nondict

/-- The runtime shape of `deal["properties"].get("proposal___service_line", [])`:
a list of option records, a delimited string, or any other value
(e.g. `None`); a missing property gives the default `[]`, i.e. `ofList []`. -/
inductive RawServiceLine where
  | ofList (items : List PyItem)
  | ofStr (s : String)
  | other

/-- The two comprehensions of main.py 843-846: list form keeps the `value`
of dict items when that value is truthy; string form (when the string is
truthy) splits on ";", strips each part and keeps the nonempty ones. -/
def resolved_service_lines (raw : RawServiceLine) : List String :=
  match raw with
  | .ofList items =>
    items.filterMap (fun it =>
      match it with
      | .dict (some v) => if v ≠ "" then some v else none
      | _ => none)
  | .ofStr s =>
    if s ≠ "" then ((pySplitSemi s).map pyStrip).filter (fun t => t ≠ "") else []
  | .other => []

/-- Lines 841-848 / 1002-1009: normalize the raw value, defaulting to
`["Risk Assessment"]` when nothing resolves. -/
def normalize_service_lines (raw : RawServiceLine) : List String :=
  let service_lines := resolved_service_lines raw
  if service_lines = [] then ["Risk Assessment"] else service_lines

/-! ### Filenames and pre-existence checks (main.py 664-665, 800-808,
877-881, 1055-1059, 1197-1203, 1249-1261) -/

/-- The stem `f"AMZ Risk - {company_name} - Proposal - {service_line}"`
used by `proposal_exists_for_service_line` (main.py 805). -/
def proposal_stem (company_name service_line : String) : String :=
  "AMZ Risk - " ++ company_name ++ " - Proposal - " ++ service_line

/-- The proposal filename (main.py 877-880). -/
def proposal_filename (company_name service_line date_str : String) : String :=
  proposal_stem company_name service_line ++ " - " ++ date_str ++ ".docx"

/-- `proposal_exists_for_service_line` (main.py 800-808): prefix match on
the folder listing, ignoring the date suffix. -/
def proposal_exists_for_service_line (listing : List String)
    (company_name service_line : String) : Bool :=
  listing.any (fun n => strStartsWith n (proposal_stem company_name service_line))

/-- The SOW filename (main.py 1055-1057). -/
def sow_filename (company_name service_line date_str : String) : String :=
  "AMZ Risk - " ++ company_name ++ " - SOW - " ++ service_line ++ " - "
    ++ date_str ++ ".docx"

/-- The SOW pre-existence check (main.py 1059): exact filename match. -/
def sow_exists_decision (listing : List String) (filename : String) : Bool :=
  listing.any (fun n => n == filename)

/-- The MSA filename stem `f"AMZ Risk - MSA - {company_name}"` (main.py 1249). -/
def msa_name_stem (company_name : String) : String :=
  "AMZ Risk - MSA - " ++ company_name

/-- The MSA filename (main.py 1250-1251). -/
def msa_filename (company_name date_str : String) : String :=
  msa_name_stem company_name ++ " - " ++ date_str ++ ".docx"

/-- `msa_file_exists` (main.py 1197-1203): prefix match.  Defined by the
script but never called by `generate_msa_for_company`. -/
def msa_file_exists (listing : List String) (pfx : String) : Bool :=
  listing.any (fun n => strStartsWith n pfx)

/-- The existence check `generate_msa_for_company` actually performs
(main.py 1259): exact filename match. -/
def msa_exists_decision (listing : List String) (filename : String) : Bool :=
  listing.any (fun n => n == filename)

/-- Which CRM status fields a flow patches on a given path. -/
inductive StatusTarget where
  | contactSide | companySide
deriving DecidableEq

/-- The pre-copy decision of a flow: stop because the document already
exists (recording which status fields are patched on that path), or
proceed to the copy request. -/
inductive PrecopyDecision where
  | alreadyExists (updates : List StatusTarget)
  | proceedToCopy
deriving DecidableEq

/-- The MSA pre-copy step (main.py 1258-1261): on an exact-name hit the
flow calls only `update_contact_msa_status` and returns; otherwise it
copies.  `update_company_msa_status` is defined (1182-1195) but never
called anywhere in the script. -/
def msa_precopy_step (listing : List String) (company_name date_str : String) :
    PrecopyDecision :=
  if msa_exists_decision listing (msa_filename company_name date_str) then
    PrecopyDecision.alreadyExists [StatusTarget.contactSide]
  else PrecopyDecision.proceedToCopy

/-- The NDA flow performs no pre-existence check at all: main.py 664-668
builds the filename and immediately issues the copy request, for any
folder listing. -/
def nda_precopy_step (_listing : List String) : PrecopyDecision :=
  PrecopyDecision.proceedToCopy

/-- Status fields patched when the Proposal flow hits its pre-existence
check (main.py 881-883): none, the loop just does `continue`. -/
def proposal_exists_path_updates : List StatusTarget := []

/-- Status fields patched when the SOW flow hits its pre-existence check
(main.py 1059-1060): none. -/
def sow_exists_path_updates : List StatusTarget := []

/-! ### Copy-and-await (main.py 666-683, 886-906, 1066-1086, 1264-1275) -/

/-- The polling bound of the Proposal and SOW loops (`for _ in range(10)`). -/
def POLL_ATTEMPTS : Nat := 10

/-- The spacing `time.sleep(2)` between Proposal/SOW polling attempts. -/
def POLL_SLEEP_SECONDS : Nat := 2

/-- The single `time.sleep(5)` wait of the NDA flow (main.py 674). -/
def NDA_COPY_WAIT_SECONDS : Nat := 5

/-- The single `time.sleep(5)` wait of the MSA flow (main.py 1270). -/
def MSA_COPY_WAIT_SECONDS : Nat := 5

/-- The Proposal/SOW polling loop: starting from attempt `i` with `k`
attempts left, return the index of the first attempt whose folder listing
contains the filename. -/
def findAttempt (listing : Nat → List String) (filename : String) : Nat → Nat → Option Nat
  | _, 0 => none
  | i, k + 1 =>
    if filename ∈ listing i then some i else findAttempt listing filename (i + 1) k

/-- Copy failures: the copy request was rejected, or the copied file never
appeared in the folder listing. -/
inductive CopyError where
  | copyRejected | copyTimeout
deriving DecidableEq

/-- The Proposal copy-and-await (main.py 886-904): a rejected copy request
fails immediately; otherwise poll up to `POLL_ATTEMPTS` listings, returning
the attempt index on success and `copyTimeout` on exhaustion. -/
def proposal_copy_and_await (accepted : Bool) (listing : Nat → List String)
    (filename : String) : Except CopyError Nat :=
  if accepted then
    match findAttempt listing filename 0 POLL_ATTEMPTS with
    | some i => Except.ok i
    | none => Except.error CopyError.copyTimeout
  else Except.error CopyError.copyRejected

/-- The SOW copy-and-await (main.py 1066-1084): same protocol as the
Proposal flow. -/
def sow_copy_and_await (accepted : Bool) (listing : Nat → List String)
    (filename : String) : Except CopyError Nat :=
  if accepted then
    match findAttempt listing filename 0 POLL_ATTEMPTS with
    | some i => Except.ok i
    | none => Except.error CopyError.copyTimeout
  else Except.error CopyError.copyRejected

/-- The NDA copy-and-await (main.py 666-683): a rejected copy request fails
immediately; otherwise a single `time.sleep(5)` and a single folder
listing, with no retry when the file is absent. -/
def nda_copy_and_await (accepted : Bool) (listing : Nat → List String)
    (filename : String) : Except CopyError Unit :=
  if accepted then
    if filename ∈ listing 0 then Except.ok () else Except.error CopyError.copyTimeout
  else Except.error CopyError.copyRejected

/-- The MSA copy-and-await (main.py 1264-1275): same single-check shape as
the NDA flow. -/
def msa_copy_and_await (accepted : Bool) (listing : Nat → List String)
    (filename : String) : Except CopyError Unit :=
  if accepted then
    if filename ∈ listing 0 then Except.ok () else Except.error CopyError.copyTimeout
  else Except.error CopyError.copyRejected

/-- Modelled from the spec (section 4.4): the claimed uniform copy-and-await,
polling up to 10 attempts for every flow. -/
def claimed_copy_and_await (accepted : Bool) (listing : Nat → List String)
    (filename : String) : Except CopyError Nat :=
  if accepted then
    match findAttempt listing filename 0 POLL_ATTEMPTS with
    | some i => Except.ok i
    | none => Except.error CopyError.copyTimeout
  else Except.error CopyError.copyRejected

/-! ### Per-service-line steps of the Proposal and SOW loops -/

/-- Outcome of one Proposal service-line iteration before any network copy. -/
inductive PropLineOutcome where
  | skippedExisting
  | generated (t : ProposalTemplateId)
deriving DecidableEq

/-- Main.py 876-885: existence check first (prefix match, `continue` with no
status update), then total template selection. -/
def proposal_service_line_step (listing : List String)
    (company_name service_line _date_str : String) : PropLineOutcome :=
  if proposal_exists_for_service_line listing company_name service_line then
    PropLineOutcome.skippedExisting
  else PropLineOutcome.generated (proposal_template_for service_line)

/-- Outcome of one SOW service-line iteration before any network copy. -/
inductive SowLineOutcome where
  | skippedExisting
  | skippedNoTemplate
  | generated (t : SowTemplateId)
deriving DecidableEq

/-- Main.py 1054-1064: exact-name existence check first (`continue` with no
status update), then partial template lookup (`continue` when unknown). -/
def sow_service_line_step (listing : List String)
    (company_name service_line date_str : String) : SowLineOutcome :=
  if sow_exists_decision listing (sow_filename company_name service_line date_str) then
    SowLineOutcome.skippedExisting
  else
    match sow_template_for service_line with
    | none => SowLineOutcome.skippedNoTemplate
    | some t => SowLineOutcome.generated t

/-! ### The Proposal field map (main.py 915-928) -/

/-- Python `d.get(k, dflt)` on a properties dict whose values may be `None`:
a present key returns its (possibly `None`) value, an absent key returns the
default. -/
def dictGet (d : List (String × Option String)) (k dflt : String) : Option String :=
  match d.find? (fun kv => kv.1 == k) with
  | some kv => kv.2
  | none => some dflt

/-- The `placeholders` dict of `generate_proposal_for_deal` (main.py
915-928), with `contact` the (possibly empty) dict returned by
`fetch_primary_contact_for_proposal` and `company` the company properties. -/
def proposal_placeholders (service_line todays_date : String)
    (contact company : List (String × Option String))
    (owner_name owner_email : String) : List (String × Option String) :=
  [("\x7bproposal___service_line\x7d", some service_line),
   ("\x7btoday\u2019s date\x7d", some todays_date),
   ("\x7bfirstname\x7d", dictGet contact "firstname" ""),
   ("\x7blastname\x7d", dictGet contact "lastname" ""),
   ("\x7bemail\x7d", dictGet contact "email" ""),
   ("\x7blegal_entity_name\x7d", dictGet company "legal_entity_name" ""),
   ("\x7baddress\x7d", dictGet company "address" ""),
   ("\x7bcity\x7d", dictGet company "city" ""),
   ("\x7bstate_list\x7d", dictGet company "state_list" ""),
   ("\x7bzip\x7d", dictGet company "zip" ""),
   ("\x7bamz_rep\x7d", some owner_name),
   ("\x7bamz_rep_email\x7d", some owner_email)]

/-- The `placeholders` dict of `generate_sow_for_deal` (main.py 1095-1109),
with `contact` the (possibly empty) dict returned by
`fetch_primary_contact_for_proposal` and `company` the company properties. -/
def sow_placeholders (service_line todays_date : String)
    (contact company : List (String × Option String))
    (owner_name owner_email : String) : List (String × Option String) :=
  [("\x7bproposal___service_line\x7d", some service_line),
   ("\x7btoday\x27s date\x7d", some todays_date),
   ("\x7bfirstname\x7d", dictGet contact "firstname" ""),
   ("\x7blastname\x7d", dictGet contact "lastname" ""),
   ("\x7bjobtitle\x7d", dictGet contact "jobtitle" ""),
   ("\x7bemail\x7d", dictGet contact "email" ""),
   ("\x7blegal_entity_name\x7d", dictGet company "legal_entity_name" ""),
   ("\x7baddress\x7d", dictGet company "address" ""),
   ("\x7bcity\x7d", dictGet company "city" ""),
   ("\x7bstate_list\x7d", dictGet company "state_list" ""),
   ("\x7bzip\x7d", dictGet company "zip" ""),
   ("\x7bamz_rep\x7d", some owner_name),
   ("\x7bamz_rep_email\x7d", some owner_email)]

/-! ## Claims about the status gates -/

/-- C1 (counterexample): the claimed uniform gate is wrong for the MSA and
SOW flows.  A company whose own `msa_status` is "generate" with a resolved
contact whose `msa_status` is "done" must generate according to the claim,
but `generate_msa_for_company` skips it (only the contact status is
consulted); and a deal whose `sow_status` is empty must be skipped
according to the claim, but `generate_sow_for_deal` proceeds (it never
reads the status). -/
theorem C1_counterexample :
    claimed_status_gate Flow.msa "generate" "done" = true ∧
    msa_gate (some (MsaContact.mk (some "done") none none none none)) = false ∧
    claimed_status_gate Flow.sow "" "" = false ∧
    sow_gate (some "") = true := by decide

/-- C1 (amended): the status gates as implemented.  NDA: a resolved contact
is required, and then either side of the company/contact pair can request
generation; Proposal: the deal status alone; MSA: the contact status alone;
SOW: no status gate at all. -/
theorem C1_amended_gates (cs : Option String) (c : NdaContact)
    (mc : Option MsaContact) (ps : String) (ss : Option String) :
    nda_gate cs (some c) =
      (pyLower (pyStrip (pyOr c.nda_status)) == "generate" ||
        pyLower (pyStrip (pyOr cs)) == "generate") ∧
    nda_gate cs none = false ∧
    proposal_gate ps = (pyLower (pyStrip ps) == "generate") ∧
    msa_gate mc =
      (pyStrip (pyLower (pyOr (mc.bind MsaContact.msa_status))) == "generate") ∧
    sow_gate ss = true := by
  refine ⟨?_, rfl, rfl, rfl, rfl⟩
  by_cases h1 : pyLower (pyStrip (pyOr c.nda_status)) = "generate" <;>
    by_cases h2 : pyLower (pyStrip (pyOr cs)) = "generate" <;>
      simp [nda_gate, h1, h2]

/-- C2 (counterexample): a company whose own `nda_status` requests
generation but with no resolvable primary contact is skipped outright by
`generate_nda_for_company` (main.py 622-624 returns before the gate), so
the flow does not proceed on company-level status alone. -/
theorem C2_counterexample :
    (pyLower (pyStrip "generate") == "generate") = true ∧
    nda_gate (some "generate") none = false := by decide

/-- C2 (amended): only the Proposal and SOW flows degrade gracefully on a
missing contact — `fetch_primary_contact_for_proposal` returns an empty
dict and every contact-derived personalization field of their field maps
renders as the empty string; the NDA flow instead skips the company
entirely when no contact resolves, regardless of the company status, and
the MSA flow — gating on the contact status alone — likewise skips. -/
theorem C2_amended (cs : Option String) (sl d ow oe : String)
    (comp : List (String × Option String)) :
    nda_gate cs none = false ∧
    msa_gate none = false ∧
    ("\x7bfirstname\x7d", some "") ∈ proposal_placeholders sl d [] comp ow oe ∧
    ("\x7blastname\x7d", some "") ∈ proposal_placeholders sl d [] comp ow oe ∧
    ("\x7bemail\x7d", some "") ∈ proposal_placeholders sl d [] comp ow oe ∧
    ("\x7bfirstname\x7d", some "") ∈ sow_placeholders sl d [] comp ow oe ∧
    ("\x7blastname\x7d", some "") ∈ sow_placeholders sl d [] comp ow oe ∧
    ("\x7bjobtitle\x7d", some "") ∈ sow_placeholders sl d [] comp ow oe ∧
    ("\x7bemail\x7d", some "") ∈ sow_placeholders sl d [] comp ow oe ∧
    substValue (dictGet [] "firstname" "") = "" := by
  refine ⟨rfl, rfl, ?_, ?_, ?_, ?_, ?_, ?_, ?_, rfl⟩ <;>
    simp [proposal_placeholders, sow_placeholders, dictGet]

/-! ## Claims about template selection -/

/-- C3 (counterexample): SOW template selection is not total.  For the
service line "Penetration Testing" no template resolves, and the SOW loop
skips that service line without producing a document, where the claim
requires a template to be selected. -/
theorem C3_counterexample :
    sow_template_for "Penetration Testing" = none ∧
    sow_service_line_step [] "Acme Corp" "Penetration Testing" "20250102" =
      SowLineOutcome.skippedNoTemplate := by decide

/-- C3 (amended): NDA selection is total with the corporate template as
default, Proposal selection is total with the Risk Assessment template as
fallback, and an empty service-line set normalizes to exactly the fallback
service line; but SOW selection is partial — a service line outside
`SOW_TEMPLATES` selects no template and is skipped. -/
theorem C3_amended (ct : Option String) (sl sl2 : String)
    (hct : pyLower (pyStrip (pyOr ct)) ∉
      (["candidate", "contractor", "employee", "partner/producer"] : List String))
    (hsl : PROPOSAL_TEMPLATES.find? (fun kv => kv.1 == sl) = none)
    (hsow : sow_template_for sl2 = none) :
    nda_template_for ct = NdaTemplate.corporate ∧
    nda_template_for (some " Candidate ") = NdaTemplate.candidate ∧
    nda_template_for (some "Contractor") = NdaTemplate.contractor ∧
    nda_template_for (some "employee") = NdaTemplate.contractor ∧
    nda_template_for (some "Partner/Producer") = NdaTemplate.contractor ∧
    proposal_template_for sl = ProposalTemplateId.riskAssessment ∧
    normalize_service_lines (RawServiceLine.ofList []) = ["Risk Assessment"] ∧
    normalize_service_lines (RawServiceLine.ofStr "") = ["Risk Assessment"] ∧
    sow_template_for "Risk Assessment" = some SowTemplateId.riskAssessment ∧
    sow_service_line_step [] "Acme Corp" sl2 "20250102" =
      SowLineOutcome.skippedNoTemplate := by
  refine ⟨?_, by decide, by decide, by decide, by decide, ?_, by decide, by decide,
    by decide, ?_⟩
  · simp only [nda_template_for]
    split_ifs with h1 h2
    · exact absurd (by rw [h1]; decide) hct
    · rcases h2 with h2 | h2 | h2 <;> exact absurd (by rw [h2]; decide) hct
    · rfl
  · simp [proposal_template_for, hsl]
  · simp [sow_service_line_step, sow_exists_decision, hsow]

/-- C3 (witness): a concrete instantiation of the amended claim, with the
unrecognized NDA contact type "Corporate" and the unknown SOW service line
"Bar". -/
theorem C3_witness :
    pyLower (pyStrip (pyOr (some "Corporate"))) ∉
      (["candidate", "contractor", "employee", "partner/producer"] : List String) ∧
    nda_template_for (some "Corporate") = NdaTemplate.corporate ∧
    sow_service_line_step [] "Acme Corp" "Bar" "20250102" =
      SowLineOutcome.skippedNoTemplate :=
  ⟨by decide,
   (C3_amended (some "Corporate") "Foo" "Bar" (by decide) (by decide) (by decide)).1,
   (C3_amended (some "Corporate") "Foo" "Bar" (by decide) (by decide)
     (by decide)).2.2.2.2.2.2.2.2.2⟩

/-! ## Claims about service-line normalization -/

/-- C4 (counterexample): normalization does not produce distinct names.
The delimited string "Training;Training" normalizes to a sequence with a
duplicate, where the claim requires an ordered sequence of distinct
service-line names. -/
theorem C4_counterexample :
    normalize_service_lines (RawServiceLine.ofStr "Training;Training") =
      ["Training", "Training"] ∧
    ¬ (normalize_service_lines (RawServiceLine.ofStr "Training;Training")).Nodup := by
  decide

/-- C4 (amended): both raw representations normalize to an ordered sequence
of nonempty service-line names with duplicates preserved (no
deduplication), and when nothing resolves the result is exactly
`["Risk Assessment"]`. -/
theorem C4_amended (raw raw2 : RawServiceLine) (t : String)
    (ht : t ∈ resolved_service_lines raw)
    (h2 : resolved_service_lines raw2 = []) :
    normalize_service_lines raw = resolved_service_lines raw ∧
    normalize_service_lines raw2 = ["Risk Assessment"] ∧
    t ≠ "" ∧
    normalize_service_lines raw ≠ [] := by
  have hne : resolved_service_lines raw ≠ [] := List.ne_nil_of_mem ht
  refine ⟨by simp [normalize_service_lines, hne], by simp [normalize_service_lines, h2],
    ?_, by simp [normalize_service_lines, hne]⟩
  cases raw with
  | ofList items =>
    simp only [resolved_service_lines, List.mem_filterMap] at ht
    obtain ⟨it, -, hit⟩ := ht
    cases it with
    | dict v =>
      cases v with
      | none => simp at hit
      | some w =>
        by_cases hw : w = "" <;> simp [hw] at hit
        exact hit ▸ hw
    | nondict => simp at hit
  | ofStr s =>
    simp only [resolved_service_lines] at ht
    by_cases hs : s = "" <;> simp [hs] at ht
    exact ht.2
  | other => simp [resolved_service_lines] at ht

/-- C4 (witness): a concrete instantiation of the amended claim on the
delimited string "Training;Recruiting" and a raw value of unexpected type. -/
theorem C4_witness :
    "Training" ∈ resolved_service_lines (RawServiceLine.ofStr "Training;Recruiting") ∧
    normalize_service_lines (RawServiceLine.ofStr "Training;Recruiting") =
      resolved_service_lines (RawServiceLine.ofStr "Training;Recruiting") ∧
    normalize_service_lines RawServiceLine.other = ["Risk Assessment"] :=
  ⟨by decide,
   (C4_amended (RawServiceLine.ofStr "Training;Recruiting") RawServiceLine.other
     "Training" (by decide) (by decide)).1,
   (C4_amended (RawServiceLine.ofStr "Training;Recruiting") RawServiceLine.other
     "Training" (by decide) (by decide)).2.1⟩

/-! ## Claims about the placeholder renderer -/

/-- C5: `replace_placeholder` concatenates all runs of a paragraph,
performs literal substring replacement of every key of the field map in
order (a `None` value substitutes the empty string, never the text
"None"), writes the result into the first run and blanks the remaining
runs. -/
theorem C5_paragraph_substitution (repl rest : List (String × Option String))
    (r k s : String) (rs : List String) :
    replace_placeholder repl (r :: rs) =
      applyReplacements repl (strJoin (r :: rs)) :: rs.map (fun _ => "") ∧
    applyReplacements ((k, none) :: rest) s = applyReplacements rest (pyReplace s k "") ∧
    substValue none = "" ∧
    substValue none ≠ "None" :=
  ⟨rfl, rfl, rfl, by decide⟩

/-- C10: `replace_placeholder` is total and structure-preserving at the
empty-paragraph edge case: with zero runs the paragraph is left unchanged
(nothing is written), and in general the number of runs never changes, for
every field map. -/
theorem C10_empty_paragraph_safe (repl : List (String × Option String)) :
    replace_placeholder repl [] = [] ∧
    ∀ runs : List String, (replace_placeholder repl runs).length = runs.length := by
  refine ⟨rfl, ?_⟩
  intro runs
  cases runs <;> simp [replace_placeholder]

/-! ## Helper lemmas for the document-level renderer claims -/

theorem foldl_append_blanks {α : Type} (l : List α) (a : String) :
    List.foldl (fun r s => r ++ s) a (l.map (fun _ => "")) = a := by
  induction l generalizing a with
  | nil => rfl
  | cons x xs ih =>
    simp only [List.map_cons, List.foldl_cons, String.append_empty]
    exact ih a

/-- Joining a substituted paragraph (one full run followed by blanked runs)
gives back the full run. -/
theorem strJoin_head_blanks {α : Type} (s : String) (l : List α) :
    strJoin (s :: l.map (fun _ => "")) = s := by
  simp only [strJoin, String.join, List.foldl_cons, String.empty_append]
  exact foldl_append_blanks l s

theorem replace_placeholder_cons (repl : List (String × Option String))
    (r : String) (rs : List String) :
    replace_placeholder repl (r :: rs) =
      applyReplacements repl (strJoin (r :: rs)) :: rs.map (fun _ => "") := rfl

/-- The concatenated text of a rendered nonempty paragraph is the
substituted concatenated text of the original paragraph. -/
theorem strJoin_replace_placeholder (repl : List (String × Option String))
    (p : Para) (hp : p ≠ []) :
    strJoin (replace_placeholder repl p) = applyReplacements repl (strJoin p) := by
  cases p with
  | nil => exact absurd rfl hp
  | cons r rs => rw [replace_placeholder_cons]; exact strJoin_head_blanks _ rs

/-- Paragraph-level idempotence: when the rendered text is a fixed point of
the substitution, rendering a second time changes nothing. -/
theorem replace_placeholder_idem (repl : List (String × Option String)) (p : Para)
    (h : applyReplacements repl (strJoin (replace_placeholder repl p)) =
      strJoin (replace_placeholder repl p)) :
    replace_placeholder repl (replace_placeholder repl p) = replace_placeholder repl p := by
  cases p with
  | nil => rfl
  | cons r rs =>
    rw [replace_placeholder_cons, strJoin_head_blanks] at h
    rw [replace_placeholder_cons, replace_placeholder_cons, strJoin_head_blanks, h,
      List.map_map]
    rfl

theorem cellParas_render (repl : List (String × Option String)) (c : Cell) :
    (renderCell repl c).paras = c.paras.map (replace_placeholder repl) := by
  cases c; rfl

/-- Pushing a `map` through a `flatten` of pointwise-mapped pieces. -/
theorem flatten_map_paras_render {β : Type} (f : Para → Para) (g h : β → List Para)
    (l : List β) (hg : ∀ b ∈ l, g b = (h b).map f) :
    (l.map g).flatten = ((l.map h).flatten).map f := by
  rw [List.map_flatten, List.map_map]
  exact congrArg List.flatten (List.map_congr_left hg)

theorem tblTopParas_render (repl : List (String × Option String)) (t : Tbl) :
    tblTopParas (renderTbl repl t) = (tblTopParas t).map (replace_placeholder repl) := by
  cases t with
  | mk rows =>
    simp only [tblTopParas, renderTbl, Tbl.rows]
    have h1 : (rows.map (fun r => r.map (renderCell repl))).flatten
        = rows.flatten.map (renderCell repl) := (List.map_flatten _ _).symm
    rw [h1, List.map_map]
    exact flatten_map_paras_render (replace_placeholder repl)
      (Cell.paras ∘ renderCell repl) Cell.paras rows.flatten
      (fun c _ => cellParas_render repl c)

theorem hfParas_render (repl : List (String × Option String)) (hf : HF) :
    hfParas (renderHF repl hf) = (hfParas hf).map (replace_placeholder repl) := by
  simp only [hfParas, renderHF, List.map_append]
  congr 1
  rw [List.map_map]
  exact flatten_map_paras_render (replace_placeholder repl)
    (tblTopParas ∘ renderTbl repl) tblTopParas hf.tables
    (fun t _ => tblTopParas_render repl t)

/-- The renderer maps `replace_placeholder` exactly over the paragraphs it
visits. -/
theorem docParas_render (repl : List (String × Option String)) (d : Docx) :
    docParas (replace_placeholders_in_document repl d) =
      (docParas d).map (replace_placeholder repl) := by
  simp only [docParas, replace_placeholders_in_document, List.map_append]
  congr 1
  · congr 1
    rw [List.map_map]
    exact flatten_map_paras_render (replace_placeholder repl)
      (tblTopParas ∘ renderTbl repl) tblTopParas d.tables
      (fun t _ => tblTopParas_render repl t)
  · rw [List.map_map]
    refine flatten_map_paras_render (replace_placeholder repl) _ _ d.sections
      (fun s _ => ?_)
    show hfParas (renderHF repl s.header) ++ hfParas (renderHF repl s.footer) = _
    rw [hfParas_render, hfParas_render, List.map_append]

theorem renderCell_idem (repl : List (String × Option String)) (c : Cell)
    (h : ∀ p ∈ c.paras, replace_placeholder repl (replace_placeholder repl p) =
      replace_placeholder repl p) :
    renderCell repl (renderCell repl c) = renderCell repl c := by
  cases c with
  | mk ps ts =>
    simp only [renderCell, Cell.mk.injEq, and_true]
    rw [List.map_map]
    exact List.map_congr_left (fun p hp => h p hp)

theorem renderTbl_idem (repl : List (String × Option String)) (t : Tbl)
    (h : ∀ p ∈ tblTopParas t, replace_placeholder repl (replace_placeholder repl p) =
      replace_placeholder repl p) :
    renderTbl repl (renderTbl repl t) = renderTbl repl t := by
  cases t with
  | mk rows =>
    simp only [renderTbl, Tbl.mk.injEq]
    rw [List.map_map]
    refine List.map_congr_left (fun row hrow => ?_)
    show (row.map (renderCell repl)).map (renderCell repl) = row.map (renderCell repl)
    rw [List.map_map]
    refine List.map_congr_left (fun c hc => renderCell_idem repl c (fun p hp => ?_))
    refine h p ?_
    simp only [tblTopParas, Tbl.rows]
    exact List.mem_flatten_of_mem
      (List.mem_map_of_mem _ (List.mem_flatten_of_mem hrow hc)) hp

theorem renderHF_idem (repl : List (String × Option String)) (hf : HF)
    (h : ∀ p ∈ hfParas hf, replace_placeholder repl (replace_placeholder repl p) =
      replace_placeholder repl p) :
    renderHF repl (renderHF repl hf) = renderHF repl hf := by
  simp only [renderHF, HF.mk.injEq]
  constructor
  · rw [List.map_map]
    exact List.map_congr_left (fun p hp => h p (List.mem_append_left _ hp))
  · rw [List.map_map]
    refine List.map_congr_left (fun t ht => renderTbl_idem repl t (fun p hp => ?_))
    exact h p (List.mem_append_right _
      (List.mem_flatten_of_mem (List.mem_map_of_mem _ ht) hp))

/-! ## Claims about document-level rendering -/

/-- C6 (counterexample): the renderer does not reach paragraphs at table
nesting depth two.  In a document whose only paragraph sits in a table
nested inside a cell of a body table, `replace_placeholders_in_document`
changes nothing, although `replace_placeholder` would substitute that
paragraph. -/
theorem C6_counterexample :
    replace_placeholders_in_document [("\x7bfirstname\x7d", some "Jane")]
        (Docx.mk [] [Tbl.mk [[Cell.mk []
          [Tbl.mk [[Cell.mk [["\x7bfirstname\x7d"]] []]]]]]] []) =
      Docx.mk [] [Tbl.mk [[Cell.mk []
        [Tbl.mk [[Cell.mk [["\x7bfirstname\x7d"]] []]]]]]] [] ∧
    replace_placeholder [("\x7bfirstname\x7d", some "Jane")] ["\x7bfirstname\x7d"] ≠
      ["\x7bfirstname\x7d"] :=
  ⟨rfl, by decide⟩

/-- C6 (amended): the renderer applies the paragraph substitution uniformly
to body paragraphs, to the direct paragraphs of the cells of top-level
tables (in body, headers and footers), and to header/footer paragraphs —
exactly the paragraphs of `docParas` — but it leaves tables nested inside
cells completely untouched, so paragraphs at nesting depth two or more are
not processed. -/
theorem C6_amended (repl : List (String × Option String)) (d : Docx)
    (ps : List Para) (ts : List Tbl) :
    (replace_placeholders_in_document repl d).paragraphs =
      d.paragraphs.map (replace_placeholder repl) ∧
    (replace_placeholders_in_document repl d).tables = d.tables.map (renderTbl repl) ∧
    docParas (replace_placeholders_in_document repl d) =
      (docParas d).map (replace_placeholder repl) ∧
    renderCell repl (Cell.mk ps ts) = Cell.mk (ps.map (replace_placeholder repl)) ts ∧
    (renderCell repl (Cell.mk ps ts)).nested = ts :=
  ⟨rfl, rfl, docParas_render repl d, rfl, rfl⟩

/-- C7: rendering is idempotent on its own output when that output is fully
substituted (every visited paragraph text is a fixed point of the
substitution, which is the case when no token of the field map remains),
and a rendering pass leaves the text of any paragraph in which no key of
the field map matches untouched verbatim. -/
theorem C7_render_idempotent (repl : List (String × Option String)) (d : Docx) (p : Para)
    (hdoc : ∀ q ∈ docParas (replace_placeholders_in_document repl d),
      applyReplacements repl (strJoin q) = strJoin q)
    (hp : applyReplacements repl (strJoin p) = strJoin p) :
    replace_placeholders_in_document repl (replace_placeholders_in_document repl d) =
      replace_placeholders_in_document repl d ∧
    strJoin (replace_placeholder repl p) = strJoin p := by
  have hidem : ∀ q ∈ docParas d,
      replace_placeholder repl (replace_placeholder repl q) = replace_placeholder repl q := by
    intro q hq
    refine replace_placeholder_idem repl q (hdoc _ ?_)
    rw [docParas_render]
    exact List.mem_map_of_mem _ hq
  constructor
  · simp only [replace_placeholders_in_document, Docx.mk.injEq]
    refine ⟨?_, ?_, ?_⟩
    · rw [List.map_map]
      exact List.map_congr_left fun q hq =>
        hidem q (List.mem_append_left _ (List.mem_append_left _ hq))
    · rw [List.map_map]
      refine List.map_congr_left fun t ht => renderTbl_idem repl t fun q hq => ?_
      exact hidem q (List.mem_append_left _ (List.mem_append_right _
        (List.mem_flatten_of_mem (List.mem_map_of_mem _ ht) hq)))
    · rw [List.map_map]
      refine List.map_congr_left fun s hs => ?_
      show DocSection.mk (renderHF repl (renderHF repl s.header))
          (renderHF repl (renderHF repl s.footer)) =
        DocSection.mk (renderHF repl s.header) (renderHF repl s.footer)
      have hsec : ∀ q ∈ hfParas s.header ++ hfParas s.footer,
          replace_placeholder repl (replace_placeholder repl q) =
            replace_placeholder repl q := by
        intro q hq
        exact hidem q (List.mem_append_right _
          (List.mem_flatten_of_mem (List.mem_map_of_mem _ hs) hq))
      rw [renderHF_idem repl s.header (fun q hq => hsec q (List.mem_append_left _ hq)),
        renderHF_idem repl s.footer (fun q hq => hsec q (List.mem_append_right _ hq))]
  · cases p with
    | nil => rfl
    | cons r rs => rw [strJoin_replace_placeholder repl _ (by simp), hp]

/-- C7 (witness): a concrete run on a one-paragraph document whose
placeholder is split across two runs; the second pass changes nothing and
the fully substituted text is preserved. -/
theorem C7_witness :
    replace_placeholders_in_document [("\x7bfirstname\x7d", some "Jane")]
        (replace_placeholders_in_document [("\x7bfirstname\x7d", some "Jane")]
          (Docx.mk [["Dear \x7bfirstname", "\x7d!"]] [] [])) =
      replace_placeholders_in_document [("\x7bfirstname\x7d", some "Jane")]
        (Docx.mk [["Dear \x7bfirstname", "\x7d!"]] [] []) ∧
    strJoin (replace_placeholder [("\x7bfirstname\x7d", some "Jane")] ["Dear Jane!"]) =
      strJoin ["Dear Jane!"] :=
  C7_render_idempotent [("\x7bfirstname\x7d", some "Jane")]
    (Docx.mk [["Dear \x7bfirstname", "\x7d!"]] [] []) ["Dear Jane!"]
    (by decide) (by decide)

/-! ## Helper lemmas for the copy-and-await and existence claims -/

/-- `findAttempt` exhausts its budget exactly when the filename appears in
none of the polled listings. -/
theorem findAttempt_none_iff (l : Nat → List String) (f : String) :
    ∀ k i, findAttempt l f i k = none ↔ ∀ j, j < k → f ∉ l (i + j) := by
  intro k
  induction k with
  | zero =>
    intro i
    constructor
    · intro _ j hj; exact absurd hj (Nat.not_lt_zero j)
    · intro _; rfl
  | succ k ih =>
    intro i
    constructor
    · intro h j hj
      by_cases hf : f ∈ l i
      · rw [findAttempt, if_pos hf] at h; exact absurd h (by simp)
      · rw [findAttempt, if_neg hf] at h
        cases j with
        | zero => simpa using hf
        | succ j' =>
          have e : i + (j' + 1) = (i + 1) + j' := by omega
          rw [e]
          exact (ih (i + 1)).1 h j' (Nat.lt_of_succ_lt_succ hj)
    · intro h
      rw [findAttempt, if_neg (by simpa using h 0 (Nat.succ_pos k))]
      refine (ih (i + 1)).2 (fun j hj => ?_)
      have e : (i + 1) + j = i + (j + 1) := by omega
      rw [e]
      exact h (j + 1) (Nat.succ_lt_succ hj)

/-- A successful `findAttempt` returns the first in-budget attempt whose
listing contains the filename. -/
theorem findAttempt_eq_some (l : Nat → List String) (f : String) :
    ∀ k i m, findAttempt l f i k = some m →
      i ≤ m ∧ m < i + k ∧ f ∈ l m ∧ ∀ j, i ≤ j → j < m → f ∉ l j := by
  intro k
  induction k with
  | zero => intro i m h; exact absurd h (by simp [findAttempt])
  | succ k ih =>
    intro i m h
    by_cases hf : f ∈ l i
    · rw [findAttempt, if_pos hf] at h
      obtain rfl : i = m := Option.some.inj h
      exact ⟨Nat.le_refl _, by omega, hf,
        fun j hij hjm => absurd (Nat.lt_of_le_of_lt hij hjm) (Nat.lt_irrefl _)⟩
    · rw [findAttempt, if_neg hf] at h
      obtain ⟨h1, h2, h3, h4⟩ := ih (i + 1) m h
      refine ⟨by omega, by omega, h3, fun j hij hjm => ?_⟩
      by_cases hj : j = i
      · subst hj; exact hf
      · exact h4 j (by omega) hjm

/-- Converse of `findAttempt_eq_some`: the first in-budget attempt whose
listing contains the filename is what `findAttempt` returns. -/
theorem findAttempt_some_of (l : Nat → List String) (f : String) :
    ∀ k i m, i ≤ m → m < i + k → f ∈ l m → (∀ j, i ≤ j → j < m → f ∉ l j) →
      findAttempt l f i k = some m := by
  intro k
  induction k with
  | zero => intro i m h1 h2 _ _; exact absurd (Nat.lt_of_le_of_lt h1 h2) (by omega)
  | succ k ih =>
    intro i m h1 h2 h3 h4
    by_cases he : m = i
    · subst he
      rw [findAttempt, if_pos h3]
    · have hne : f ∉ l i := h4 i (Nat.le_refl i) (by omega)
      rw [findAttempt, if_neg hne]
      exact ih (i + 1) m (by omega) (by omega) h3 (fun j hj1 hj2 => h4 j (by omega) hj2)

/-- Strings starting with one of their own append factors. -/
theorem strStartsWith_append (s t : String) : strStartsWith (s ++ t) s = true := by
  simp [strStartsWith, String.data_append]

/-- A proposal filename starts with the proposal stem of the same company
and service line, whatever the date. -/
theorem proposal_filename_startsWith (cn sl ds : String) :
    strStartsWith (proposal_filename cn sl ds) (proposal_stem cn sl) = true := by
  have e : proposal_filename cn sl ds
      = proposal_stem cn sl ++ (" - " ++ (ds ++ ".docx")) := by
    simp [proposal_filename, String.ext_iff, String.data_append, List.append_assoc]
  rw [e]
  exact strStartsWith_append _ _

/-! ## Claims about the remote copy poller -/

/-- C8 (counterexample): the claimed uniform 10-attempt poller is wrong for
the NDA and MSA flows.  With a listing in which the copied file only
appears from the second attempt on, the claimed poller finds it at attempt
1, but the NDA and MSA flows — which wait 5 seconds once and check a
single listing — report a failure. -/
theorem C8_counterexample :
    claimed_copy_and_await true (fun i => if i = 0 then [] else ["f.docx"]) "f.docx" =
      Except.ok 1 ∧
    nda_copy_and_await true (fun i => if i = 0 then [] else ["f.docx"]) "f.docx" =
      Except.error CopyError.copyTimeout ∧
    msa_copy_and_await true (fun i => if i = 0 then [] else ["f.docx"]) "f.docx" =
      Except.error CopyError.copyTimeout :=
  ⟨rfl, rfl, rfl⟩

/-- C8 (amended): every flow fails immediately with `copyRejected` and no
retry when the copy request is rejected; the Proposal and SOW flows poll
identically up to `POLL_ATTEMPTS = 10` listings at `POLL_SLEEP_SECONDS = 2`
spacing, succeed exactly at the first listing containing the filename, and
time out exactly when the filename appears in none of the 10 listings; the
NDA and MSA flows instead wait 5 seconds once and succeed exactly when the
single listing they take contains the filename.  All characterizations
hold for every listing, including ones on which the poll times out. -/
theorem C8_amended (l : Nat → List String) (f : String) (i : Nat) :
    proposal_copy_and_await false l f = Except.error CopyError.copyRejected ∧
    sow_copy_and_await false l f = Except.error CopyError.copyRejected ∧
    nda_copy_and_await false l f = Except.error CopyError.copyRejected ∧
    msa_copy_and_await false l f = Except.error CopyError.copyRejected ∧
    sow_copy_and_await true l f = proposal_copy_and_await true l f ∧
    (proposal_copy_and_await true l f = Except.error CopyError.copyTimeout ↔
      ∀ j, j < POLL_ATTEMPTS → f ∉ l j) ∧
    (proposal_copy_and_await true l f = Except.ok i ↔
      i < POLL_ATTEMPTS ∧ f ∈ l i ∧ ∀ j, j < i → f ∉ l j) ∧
    (nda_copy_and_await true l f = Except.ok () ↔ f ∈ l 0) ∧
    (msa_copy_and_await true l f = Except.ok () ↔ f ∈ l 0) ∧
    POLL_SLEEP_SECONDS = 2 ∧ NDA_COPY_WAIT_SECONDS = 5 ∧ MSA_COPY_WAIT_SECONDS = 5 := by
  refine ⟨rfl, rfl, rfl, rfl, rfl, ?_, ?_, ?_, ?_, rfl, rfl, rfl⟩
  · simp only [proposal_copy_and_await, if_pos trivial]
    cases hfa : findAttempt l f 0 POLL_ATTEMPTS with
    | some m =>
      obtain ⟨-, hm, hmem, -⟩ := findAttempt_eq_some l f POLL_ATTEMPTS 0 m hfa
      refine iff_of_false (by simp) (fun hall => ?_)
      exact hall m (by omega) hmem
    | none =>
      refine iff_of_true rfl (fun j hj => ?_)
      have := (findAttempt_none_iff l f POLL_ATTEMPTS 0).1 hfa j hj
      simpa using this
  · simp only [proposal_copy_and_await, if_pos trivial]
    constructor
    · intro hok
      cases hfa : findAttempt l f 0 POLL_ATTEMPTS with
      | some m =>
        rw [hfa] at hok
        obtain rfl : m = i := by simpa using hok
        obtain ⟨-, hm, hmem, hmin⟩ := findAttempt_eq_some l f POLL_ATTEMPTS 0 m hfa
        exact ⟨by simpa using hm, hmem, fun j hj => hmin j (Nat.zero_le j) hj⟩
      | none => rw [hfa] at hok; exact absurd hok (by simp)
    · rintro ⟨h1, h2, h3⟩
      rw [findAttempt_some_of l f POLL_ATTEMPTS 0 i (Nat.zero_le i) (by omega) h2
        (fun j _ hj2 => h3 j hj2)]
  · simp only [nda_copy_and_await, if_pos trivial]
    by_cases hf : f ∈ l 0
    · simp [hf]
    · simp [hf]
  · simp only [msa_copy_and_await, if_pos trivial]
    by_cases hf : f ∈ l 0
    · simp [hf]
    · simp [hf]

/-- C8 (witness): concrete instantiations of the amended claim, on a
listing containing the copied file from the first attempt (success), on a
rejected copy request, and on a listing in which the file never appears
(CopyTimeout after the 10-attempt bound). -/
theorem C8_witness :
    proposal_copy_and_await true (fun _ => ["f.docx"]) "f.docx" = Except.ok 0 ∧
    nda_copy_and_await false (fun _ => ["f.docx"]) "f.docx" =
      Except.error CopyError.copyRejected ∧
    proposal_copy_and_await true (fun _ => ([] : List String)) "f.docx" =
      Except.error CopyError.copyTimeout :=
  have h := C8_amended (fun _ => ["f.docx"]) "f.docx" 0
  have h2 := C8_amended (fun _ => ([] : List String)) "f.docx" 0
  ⟨(h.2.2.2.2.2.2.1).mpr ⟨by decide, by decide, fun j hj => absurd hj (Nat.not_lt_zero j)⟩,
   h.2.2.1,
   (h2.2.2.2.2.2.1).mpr (fun j _ => List.not_mem_nil "f.docx")⟩

/-! ## Claims about pre-existence checks and status propagation -/

/-- C9 (counterexample): the claimed match modes are backwards for the
Proposal and MSA flows, and the MSA exists-path does not update both
sides.  With an old-dated proposal file present, the exact-name check the
claim prescribes misses it while the code prefix check hits; with an
old-dated MSA file present, the prefix check the claim prescribes hits
while the code exact check misses and the flow proceeds to create a second
file; and on an MSA exact hit only the contact status is patched. -/
theorem C9_counterexample :
    proposal_exists_for_service_line [proposal_filename "Acme Corp" "Training" "20250101"]
      "Acme Corp" "Training" = true ∧
    ([proposal_filename "Acme Corp" "Training" "20250101"]).contains
      (proposal_filename "Acme Corp" "Training" "20250102") = false ∧
    msa_file_exists [msa_filename "Acme Corp" "20250101"] (msa_name_stem "Acme Corp") = true ∧
    msa_exists_decision [msa_filename "Acme Corp" "20250101"]
      (msa_filename "Acme Corp" "20250102") = false ∧
    msa_precopy_step [msa_filename "Acme Corp" "20250101"] "Acme Corp" "20250102" =
      PrecopyDecision.proceedToCopy ∧
    msa_precopy_step [msa_filename "Acme Corp" "20250102"] "Acme Corp" "20250102" =
      PrecopyDecision.alreadyExists [StatusTarget.contactSide] := by decide

/-- C9 (amended): the NDA flow performs no pre-existence check; the
Proposal flow checks by prefix (any date) and on a hit skips with no
status update; the SOW flow checks by exact name and skips with no status
update; the MSA flow checks by exact name (its prefix matcher
`msa_file_exists` is never called) and on a hit updates only the contact
status before stopping. -/
theorem C9_amended (listing : List String) (cn sl ds ds2 : String)
    (hm : msa_filename cn ds ∈ listing)
    (hp : proposal_filename cn sl ds ∈ listing) :
    nda_precopy_step listing = PrecopyDecision.proceedToCopy ∧
    proposal_exists_for_service_line listing cn sl = true ∧
    proposal_exists_path_updates = [] ∧
    sow_exists_path_updates = [] ∧
    msa_exists_decision listing (msa_filename cn ds) = true ∧
    msa_precopy_step listing cn ds =
      PrecopyDecision.alreadyExists [StatusTarget.contactSide] ∧
    (sow_exists_decision listing (sow_filename cn sl ds2) = true ↔
      sow_filename cn sl ds2 ∈ listing) := by
  have hmsa : msa_exists_decision listing (msa_filename cn ds) = true := by
    simp only [msa_exists_decision, List.any_eq_true]
    exact ⟨_, hm, by simp⟩
  refine ⟨rfl, ?_, rfl, rfl, hmsa, ?_, ?_⟩
  · simp only [proposal_exists_for_service_line, List.any_eq_true]
    exact ⟨_, hp, proposal_filename_startsWith cn sl ds⟩
  · simp [msa_precopy_step, hmsa]
  · simp [sow_exists_decision, List.any_eq_true]

/-- C9 (witness): a concrete folder with an MSA file and a proposal file
for the same day. -/
theorem C9_witness :
    msa_filename "Acme" "20250101" ∈
      [msa_filename "Acme" "20250101", proposal_filename "Acme" "Training" "20250101"] ∧
    msa_precopy_step
      [msa_filename "Acme" "20250101", proposal_filename "Acme" "Training" "20250101"]
      "Acme" "20250101" = PrecopyDecision.alreadyExists [StatusTarget.contactSide] ∧
    proposal_exists_for_service_line
      [msa_filename "Acme" "20250101", proposal_filename "Acme" "Training" "20250101"]
      "Acme" "Training" = true :=
  have h := C9_amended
    [msa_filename "Acme" "20250101", proposal_filename "Acme" "Training" "20250101"]
    "Acme" "Training" "20250101" "20250102" (by decide) (by decide)
  ⟨by decide, h.2.2.2.2.2.1, h.2.1⟩

end AMZ
